import Mathlib

/-!
Verification of the stream backend adapter in `src/stream/stream_lavf.c`.

The adapter exposes open / read / write / seek / control / close over an
abstract I/O backend (libavformat's avio layer).  Byte strings are modelled
as `List Char`; the backend, the cookie store and the user-path resolver are
collaborators and appear as oracle function fields of a `Backend` record.
Status codes and the control-operation codes come from `stream.h`, which is
not part of the sources under verification, and are therefore modelled from
the specification (see the doc comments on the individual definitions).
-/

/-- Byte/character strings of the C sources, modelled as lists of characters. -/
abbrev Str := List Char

/-- Ordered option dictionary (an `AVDictionary`): an association list. -/
abbrev Dict := List (Str × Str)

/-- Ordered tag container (`struct mp_tags`): an association list. -/
abbrev Tags := List (Str × Str)

/-- The newline character. -/
def nl : Char := Char.ofNat 10

/-- The carriage-return character. -/
def cr : Char := Char.ofNat 13

/-- The single-quote character used by the ICY `StreamTitle` marker. -/
def quoteC : Char := Char.ofNat 39

/-- The CRLF line terminator used when composing the custom header block. -/
def crlf : Str := [cr, nl]

/-- Modelled from the spec: `stream.h` (outside `src/`) defines the adapter-wide
status code for a successful operation; in mpv's `stream.h`, `STREAM_OK = 1`. -/
def STREAM_OK : Int := 1

/-- Modelled from the spec: `stream.h` (outside `src/`) defines the adapter-wide
status code for a failed operation (the spec's error signal); in mpv's
`stream.h`, `STREAM_ERROR = 0`. -/
def STREAM_ERROR : Int := 0

/-- Modelled from the spec: `stream.h` (outside `src/`) defines the adapter-wide
capability-negative signal, distinct from the error signal; in mpv's
`stream.h`, `STREAM_UNSUPPORTED = -1`. -/
def STREAM_UNSUPPORTED : Int := -1

/-- avio open flag for read mode (`AVIO_FLAG_READ` of the external backend). -/
def AVIO_FLAG_READ : Int := 1

/-- avio open flag for write mode (`AVIO_FLAG_WRITE` of the external backend). -/
def AVIO_FLAG_WRITE : Int := 2

/-- The stream I/O mode (`STREAM_READ` / `STREAM_WRITE` of `stream.h`). -/
inductive Mode where
  | read
  | write
  deriving DecidableEq

/-- The backend session handle (`AVIOContext`), restricted to the affordances
the adapter uses: the write flag, the seekability report, the error flag, the
presence of an option-introspection class, and the two ICY metadata strings
(`none` models a property whose `av_opt_get` fails). -/
structure AVIOContext where
  write_flag : Bool
  seekable : Bool
  error : Bool
  av_class : Bool
  icy_metadata_headers : Option Str
  icy_metadata_packet : Option Str
  deriving DecidableEq

/-- The relevant configuration fields of `struct MPOpts` consumed by `open_f`. -/
structure MPOpts where
  network_useragent : Option Str
  network_cookies_enabled : Bool
  network_cookies_file : Option Str
  network_tls_verify : Bool
  network_tls_ca_file : Option Str
  network_referrer : Option Str
  network_http_header_fields : List Str
  stream_lavf_avopts : List (Str × Str)
  deriving DecidableEq

/-- The caller-visible stream descriptor (`stream_t`), restricted to the fields
`stream_lavf.c` reads or writes.  The `_set` booleans record which function
pointers `open_f` installed (`stream->seek` etc.). -/
structure stream_t where
  url : Option Str
  mode : Mode
  opts : MPOpts
  priv : Option AVIOContext
  seekable : Bool
  seek_set : Bool
  fill_buffer_set : Bool
  write_buffer_set : Bool
  control_set : Bool
  close_set : Bool
  demuxer : Option Str
  lavf_type : Option Str
  mime_type : Option Str
  streaming : Bool
  deriving DecidableEq

/-- The external I/O backend, the cookie store and the user-path resolver
(collaborators per the spec): each primitive the adapter delegates to is an
oracle function.  `avio_open2` returns the new handle or a negative error
code; `avio_write_flush` is `avio_write` followed by `avio_flush`, returning
the handle with its error flag possibly set; `mime_get` is
`av_opt_get(avio, "mime_type", ...)` with `none` for a failed call. -/
structure Backend where
  avio_open2 : Str → Int → Dict → Except Int AVIOContext
  avio_read : AVIOContext → Int → Int
  avio_write_flush : AVIOContext → Str → AVIOContext
  avio_seek : AVIOContext → Int → Int
  avio_size : AVIOContext → Int
  avio_seek_time : AVIOContext → Int → Int → Int → Int
  mime_get : AVIOContext → Option Str
  cookies_lavf : Option Str → Str
  mp_get_user_path : Str → Str

/-- The control-operation codes of `stream.h` (outside `src/`), modelled from
the spec as one constructor per code the dispatcher recognizes, plus `other`
for every unrecognized integer code. -/
inductive Cmd where
  | GET_SIZE
  | AVSEEK (stream_index : Int) (timestamp : Int) (seekFlags : Int)
  | GET_METADATA
  | RECONNECT
  | other (code : Int)
  deriving DecidableEq

/-- Result of one `control` call: the updated descriptor, the returned status,
and the two out-parameters (`*(int64_t *)arg` for a size query, the tag set
pointer for a metadata query). -/
structure ControlResult where
  stream : stream_t
  ret : Int
  size_out : Option Int
  tags_out : Option Tags
  deriving DecidableEq

/-- `bstr0`: a C string pointer becomes a byte string, with NULL as the empty
string. -/
def bstr0 : Option Str → Str
  | none => []
  | some s => s

/-- Whether a C string pointer is NULL or empty: `!p || !p[0]`. -/
def optEmpty : Option Str → Bool
  | none => true
  | some s => s.isEmpty

/-- The generic wrapper scheme table of `stream_lavf.c` line 144:
`{ "lavf://", "ffmpeg://" }`. -/
def url_wrappers : List Str := ["lavf://".data, "ffmpeg://".data]

/-- The wrapper-stripping loop of `open_f` (lines 164-166): each table entry is
tested once, in order, against the current remainder. -/
def stripWrap (filename : Str) : Str :=
  url_wrappers.foldl (fun f p => if p.isPrefixOf f then f.drop p.length else f) filename

/-- The deprecated-scheme rewrite of `open_f` (lines 181-187): `mms://` or
`mmshttp://` becomes `mmsh://` with the remainder preserved. -/
def rewriteMms (filename : Str) : Str :=
  if ("mms://".data).isPrefixOf filename then
    "mmsh://".data ++ filename.drop ("mms://".data).length
  else if ("mmshttp://".data).isPrefixOf filename then
    "mmsh://".data ++ filename.drop ("mmshttp://".data).length
  else filename

/-- `av_dict_set` with flags 0: replace an existing entry for the key, else
append a new entry. -/
def av_dict_set (d : Dict) (k v : Str) : Dict :=
  if d.any (fun e => e.1 == k) then d.map (fun e => if e.1 == k then (k, v) else e)
  else d ++ [(k, v)]

/-- `mp_set_avdict`: apply a raw key/value override list entry by entry. -/
def mp_set_avdict (d : Dict) (l : List (Str × Str)) : Dict :=
  l.foldl (fun acc kv => av_dict_set acc kv.1 kv.2) d

/-- The option-dictionary construction of `open_f` (lines 189-217): user-agent,
cookies (via the cookie-store collaborator, with user-path resolution of a
non-empty cookie file), TLS verification flag, CA file, the composed custom
header block (referrer plus extra header lines, CRLF-terminated), the ICY
request flag, and finally the user override list. -/
def buildDict (bk : Backend) (opts : MPOpts) : Dict :=
  let dict : Dict := []
  let dict := match opts.network_useragent with
    | some ua => av_dict_set dict ("user-agent".data) ua
    | none => dict
  let dict :=
    if opts.network_cookies_enabled then
      let file := match opts.network_cookies_file with
        | some f => if f.isEmpty = false then some (bk.mp_get_user_path f) else some f
        | none => none
      let cookies := bk.cookies_lavf file
      if cookies.isEmpty = false then av_dict_set dict ("cookies".data) cookies else dict
    else dict
  let dict := av_dict_set dict ("tls_verify".data)
    (if opts.network_tls_verify then "1".data else "0".data)
  let dict := match opts.network_tls_ca_file with
    | some ca => av_dict_set dict ("ca_file".data) ca
    | none => dict
  let cust_headers : Str := []
  let cust_headers := cust_headers ++ (match opts.network_referrer with
    | some ref => "Referer: ".data ++ ref ++ crlf
    | none => [])
  let cust_headers := cust_headers ++
    (opts.network_http_header_fields.foldl (fun acc h => acc ++ h ++ crlf) [])
  let dict := if cust_headers.isEmpty = false then
      av_dict_set dict ("headers".data) cust_headers
    else dict
  let dict := av_dict_set dict ("icy".data) ("1".data)
  mp_set_avdict dict opts.stream_lavf_avopts

/-- `fill_buffer` (lines 55-62): `-1` when no handle is present, otherwise the
backend read result with any non-positive count normalized to `-1`. -/
def fill_buffer (bk : Backend) (s : stream_t) (max_len : Int) : Int :=
  match s.priv with
  | none => -1
  | some avio =>
    let r := bk.avio_read avio max_len
    if r ≤ 0 then -1 else r

/-- `write_buffer` (lines 64-74): `-1` when no handle is present, otherwise
write then flush, reporting `-1` if the handle's error flag is set afterwards
and the full length otherwise. -/
def write_buffer (bk : Backend) (s : stream_t) (buffer : Str) : stream_t × Int :=
  match s.priv with
  | none => (s, -1)
  | some avio =>
    let avio2 := bk.avio_write_flush avio buffer
    if avio2.error then ({ s with priv := some avio2 }, -1)
    else ({ s with priv := some avio2 }, Int.ofNat buffer.length)

/-- `seek` (lines 76-85): `-1` when no handle is present, `0` when the backend
absolute seek fails, `1` on success. -/
def seek (bk : Backend) (s : stream_t) (newpos : Int) : Int :=
  match s.priv with
  | none => -1
  | some avio => if bk.avio_seek avio newpos < 0 then 0 else 1

/-- `close_f` (lines 87-97): invokes the backend's `avio_close` when a handle
is present — an external side effect with no descriptor-visible state; the
descriptor itself is not modified (the reconnect path in `control` clears
`priv` separately, exactly as in the source). -/
def close_f (s : stream_t) : stream_t := s

/-- Modelled from the spec: split a byte string into lines the way the
`bstr_getline` loop does (`bstr.c` is outside `src/`): each line runs up to
and including its newline; a final fragment without a newline is its own
line; the empty string yields no lines. -/
def getLinesGo (acc : Str) : Str → List Str
  | [] => [acc.reverse]
  | c :: rest =>
    if c = nl then
      (acc.reverse ++ [nl]) :: (if rest.isEmpty then [] else getLinesGo [] rest)
    else getLinesGo (c :: acc) rest

/-- Modelled from the spec: the CRLF/LF line decomposition of the ICY header
block (`bstr_getline`, outside `src/`). -/
def getLines (s : Str) : List Str :=
  match s with
  | [] => []
  | c :: rest => getLinesGo [] (c :: rest)

/-- Modelled from the spec: `bstr_strip_linebreaks` (outside `src/`) removes
one trailing CRLF or LF from a line. -/
def bstr_strip_linebreaks (l : Str) : Str :=
  if List.isSuffixOf [cr, nl] l then l.take (l.length - 2)
  else if List.isSuffixOf [nl] l then l.take (l.length - 1)
  else l

/-- Modelled from the spec: split a byte string at the first occurrence of a
(non-empty) separator substring, returning the parts before and after it
(`bstr_split_tok` / `bstr_find` + `bstr_cut`, outside `src/`). -/
def splitAtSub (sep : Str) : Str → Option (Str × Str)
  | [] => if sep.isEmpty then some ([], []) else none
  | c :: rest =>
    if sep.isPrefixOf (c :: rest) then some ([], (c :: rest).drop sep.length)
    else match splitAtSub sep rest with
      | some (a, b) => some (c :: a, b)
      | none => none

/-- Modelled from the spec: the tag container (`common/tags.c`, outside
`src/`) is an ordered key-to-value mapping; setting a key replaces an
existing entry in place and otherwise appends. -/
def mp_tags_set (t : Tags) (k v : Str) : Tags :=
  if t.any (fun e => e.1 == k) then t.map (fun e => if e.1 == k then (k, v) else e)
  else t ++ [(k, v)]

/-- The header-parsing loop of `read_icy` (lines 298-304): each CRLF/LF line
that splits at the first `": "` contributes one tag. -/
def parseIcyHeaderLines (header : Str) (res : Tags) : Tags :=
  (getLines header).foldl (fun r line =>
    match splitAtSub (": ".data) (bstr_strip_linebreaks line) with
    | some (n, v) => mp_tags_set r n v
    | none => r) res

/-- The `StreamTitle='` marker scanned for in the ICY packet (line 306). -/
def streamTitleMarker : Str := "StreamTitle=".data ++ [quoteC]

/-- The reserved sentinel value written back into the backend's packet field
after a successful extraction (lines 293 and 315). -/
def icySentinel : Str := "-".data

/-- The title extraction of `read_icy` (lines 306-313): after the marker, the
title runs up to the next single quote. -/
def icyTitle (packet : Str) : Option Str :=
  match splitAtSub streamTitleMarker packet with
  | some (_, rest) => some (rest.takeWhile (fun c => !(c == quoteC)))
  | none => none

/-- `read_icy` (lines 267-321) on a present handle (its only caller, the
`control` dispatcher, guards against a NULL handle): no introspection class or
both ICY strings NULL/empty or a packet equal to the sentinel yields no tag
set; otherwise the header lines and the best-effort title are collected into a
fresh tag set and the sentinel is written into the packet field.  The returned
handle is the (possibly sentinel-updated) backend state. -/
def read_icy (avio : AVIOContext) : AVIOContext × Option Tags :=
  if avio.av_class = false then (avio, none)
  else
    let icy_header := avio.icy_metadata_headers
    let icy_packet := avio.icy_metadata_packet
    if optEmpty icy_header = true ∧ optEmpty icy_packet = true then (avio, none)
    else
      let packet := bstr0 icy_packet
      if packet = icySentinel then (avio, none)
      else
        let res : Tags := []
        let res := parseIcyHeaderLines (bstr0 icy_header) res
        let res := match icyTitle packet with
          | some t => mp_tags_set res ("icy-title".data) t
          | none => res
        ({ avio with icy_metadata_packet := some icySentinel }, some res)

/-- The part of `open_f` after the wrapper prefixes have been stripped (lines
167-259): the `rtsp:` hand-off, the `mms` rewrite, the dictionary build, the
backend open, MIME introspection, the `rtmp` container flag, and the
population of the descriptor on success. -/
def openResolved (bk : Backend) (stream : stream_t) (flags : Int) (filename : Str) :
    stream_t × Int :=
  if ("rtsp:".data).isPrefixOf filename then
    ({ stream with demuxer := some ("lavf".data), lavf_type := some ("rtsp".data) },
      STREAM_OK)
  else
    let fname := rewriteMms filename
    let dict := buildDict bk stream.opts
    match bk.avio_open2 fname flags dict with
    | Except.error _ => (stream, STREAM_ERROR)
    | Except.ok avio =>
      let stream := if avio.av_class then
          match bk.mime_get avio with
          | some mt => { stream with mime_type := some mt }
          | none => stream
        else stream
      let stream := if ("rtmp".data).isPrefixOf fname then
          { stream with demuxer := some ("lavf".data), lavf_type := some ("flv".data) }
        else stream
      ({ stream with
          priv := some avio
          seekable := avio.seekable
          seek_set := avio.seekable
          fill_buffer_set := true
          write_buffer_set := true
          control_set := true
          close_set := true
          streaming := true }, STREAM_OK)

/-- `open_f` (lines 146-265): reset the seek affordances, derive the open
flags from the mode, reject a NULL URL, strip the wrapper prefixes and run the
rest of the open sequence. -/
def open_f (bk : Backend) (stream : stream_t) : stream_t × Int :=
  let stream1 := { stream with seek_set := false, seekable := false }
  let flags := if stream.mode = Mode.write then AVIO_FLAG_WRITE else AVIO_FLAG_READ
  match stream.url with
  | none => (stream1, STREAM_ERROR)
  | some url0 => openResolved bk stream1 flags (stripWrap url0)

/-- `control` (lines 99-136): the operation-coded dispatcher.  With no handle
present only reconnect proceeds (everything else returns `-1`); reconnect on a
write-mode handle is refused as unsupported; otherwise reconnect closes the
session, clears `priv` and re-runs `open_f`; size/timestamp-seek/metadata
delegate to the backend, and every unrecognized code falls through the switch
to `STREAM_UNSUPPORTED`. -/
def stream_control (bk : Backend) (s : stream_t) (cmd : Cmd) : ControlResult :=
  match s.priv with
  | none =>
    match cmd with
    | Cmd.RECONNECT =>
      let s2 := { close_f s with priv := none }
      let r := open_f bk s2
      ⟨r.1, r.2, none, none⟩
    | _ => ⟨s, -1, none, none⟩
  | some avio =>
    match cmd with
    | Cmd.GET_SIZE =>
      let size := bk.avio_size avio
      if size ≥ 0 then ⟨s, 1, some size, none⟩
      else ⟨s, STREAM_UNSUPPORTED, none, none⟩
    | Cmd.AVSEEK idx ts fl =>
      let r := bk.avio_seek_time avio idx ts fl
      if r ≥ 0 then ⟨s, 1, none, none⟩
      else ⟨s, STREAM_UNSUPPORTED, none, none⟩
    | Cmd.GET_METADATA =>
      let p := read_icy avio
      let s2 := { s with priv := some p.1 }
      match p.2 with
      | none => ⟨s2, STREAM_UNSUPPORTED, none, none⟩
      | some t => ⟨s2, 1, none, some t⟩
    | Cmd.RECONNECT =>
      if avio.write_flag then ⟨s, STREAM_UNSUPPORTED, none, none⟩
      else
        let s2 := { close_f s with priv := none }
        let r := open_f bk s2
        ⟨r.1, r.2, none, none⟩
    | Cmd.other _ => ⟨s, STREAM_UNSUPPORTED, none, none⟩

/-- A configuration value with every optional feature disabled, used by the
concrete witnesses. -/
def optsW : MPOpts := ⟨none, false, none, false, none, none, [], []⟩

/-- A read-mode, seekable backend handle. -/
def avioRead : AVIOContext := ⟨false, true, false, false, none, none⟩

/-- A write-mode backend handle. -/
def avioWrite : AVIOContext := ⟨true, false, false, false, none, none⟩

/-- A read-mode handle whose backend reports it as non-seekable. -/
def avioNoSeek : AVIOContext := ⟨false, false, false, false, none, none⟩

/-- A backend whose open primitive always succeeds with a non-seekable
handle. -/
def bkOk : Backend :=
  ⟨fun _ _ _ => Except.ok avioNoSeek, fun _ _ => 0, fun a _ => a, fun _ _ => 0,
    fun _ => -1, fun _ _ _ _ => -1, fun _ => none, fun _ => [], fun f => f⟩

/-- A backend whose open primitive always fails. -/
def bkFail : Backend :=
  ⟨fun _ _ _ => Except.error (-2), fun _ _ => 0, fun a _ => a, fun _ _ => 0,
    fun _ => -1, fun _ _ _ _ => -1, fun _ => none, fun _ => [], fun f => f⟩

/-- A backend that opens exactly the resolved URL `x` and refuses every other
one, used to observe which resolved URL the open sequence hands over. -/
def bkDisc : Backend :=
  ⟨fun f _ _ => if f = "x".data then Except.ok avioRead else Except.error (-2),
    fun _ _ => 0, fun a _ => a, fun _ _ => 0,
    fun _ => -1, fun _ _ _ _ => -1, fun _ => none, fun _ => [], fun f => f⟩

/-- A freshly initialized read-mode descriptor with no open session. -/
def sBase : stream_t :=
  ⟨some ("http://x".data), Mode.read, optsW, none, false, false, false, false,
    false, false, none, none, none, false⟩

/-- A descriptor whose URL is the empty string (not NULL). -/
def sEmptyUrl : stream_t := { sBase with url := some [] }

/-- A descriptor with a missing (NULL) URL. -/
def sNoUrl : stream_t := { sBase with url := none }

/-- A descriptor holding an open write-mode session. -/
def sWritePriv : stream_t := { sBase with priv := some avioWrite }

/-- A descriptor holding an open read-mode session. -/
def sReadPriv : stream_t := { sBase with priv := some avioRead }

/-- A write-mode descriptor with no open session. -/
def sWriteNoPriv : stream_t := { sBase with mode := Mode.write }

/-- The ICY packet text of the spec's worked example. -/
def icyPacketC8 : Str :=
  "StreamTitle=".data ++ [quoteC] ++ "Now Playing".data ++ [quoteC] ++ ";".data

/-- A backend handle holding the header and packet text of the spec's worked
metadata example. -/
def avioC8 : AVIOContext :=
  ⟨false, true, false, true, some ("StationName: Test\r\n".data), some icyPacketC8⟩


/-- C1: for every control operation code that is not one of the recognized
operations, and in every session state (handle present or absent), the
dispatcher returns the unsupported signal and never the error signal. -/
theorem control_unknown_cmd_unsupported (bk : Backend) (s : stream_t) (n : Int) :
    (stream_control bk s (Cmd.other n)).ret = STREAM_UNSUPPORTED ∧
    (stream_control bk s (Cmd.other n)).ret ≠ STREAM_ERROR := by
  unfold stream_control
  cases hp : s.priv <;>
    exact ⟨rfl, fun hcon => absurd (show ((-1 : Int)) = 0 from hcon) (by decide)⟩

/-- C9: read, write and absolute seek on a descriptor with no session handle
each return the error signal `-1` without consulting the backend (the absent
handle is never dereferenced: the NULL check is the first step of each). -/
theorem facade_null_priv_error (bk : Backend) (s : stream_t) (h : s.priv = none)
    (buffer : Str) (max_len newpos : Int) :
    fill_buffer bk s max_len = -1 ∧ (write_buffer bk s buffer).2 = -1 ∧
    seek bk s newpos = -1 := by
  have hs : s = { s with priv := none } := by rw [← h]
  rw [hs]
  exact ⟨rfl, rfl, rfl⟩

/-- Witness for C9 at a concrete descriptor holding no session. -/
theorem facade_null_priv_error_witness :
    fill_buffer bkOk sBase 10 = -1 ∧ (write_buffer bkOk sBase ("ab".data)).2 = -1 ∧
    seek bkOk sBase 5 = -1 :=
  facade_null_priv_error bkOk sBase rfl ("ab".data) 10 5

/-- C10: a reconnect request arriving while no session handle is present
proceeds to the full reopen regardless of the descriptor's I/O mode: the
dispatcher's result is exactly that of re-running open on the descriptor. -/
theorem reconnect_absent_session_reopens (bk : Backend) (s : stream_t)
    (h : s.priv = none) :
    stream_control bk s Cmd.RECONNECT =
      ⟨(open_f bk { s with priv := none }).1, (open_f bk { s with priv := none }).2,
        none, none⟩ := by
  have hs : s = { s with priv := none } := by rw [← h]
  rw [hs]
  rfl

/-- Witness for C10: a write-mode descriptor with no session is reopened (the
backend open runs and reports success) rather than refused. -/
theorem reconnect_absent_session_reopens_witness :
    stream_control bkOk sWriteNoPriv Cmd.RECONNECT =
      ⟨(open_f bkOk { sWriteNoPriv with priv := none }).1,
        (open_f bkOk { sWriteNoPriv with priv := none }).2, none, none⟩ ∧
    (stream_control bkOk sWriteNoPriv Cmd.RECONNECT).ret = STREAM_OK :=
  ⟨reconnect_absent_session_reopens bkOk sWriteNoPriv rfl, by decide⟩

/-- C5: a reconnect request on a write-mode session is refused as unsupported
with the descriptor untouched (nothing closed or reopened), while on a
read-mode session it closes the session, clears the handle and re-runs open on
the descriptor, whose URL and mode fields are unchanged — a full reopen. -/
theorem reconnect_mode_dispatch (bk : Backend) (s : stream_t) (avio : AVIOContext)
    (hp : s.priv = some avio) :
    (avio.write_flag = true →
      stream_control bk s Cmd.RECONNECT = ⟨s, STREAM_UNSUPPORTED, none, none⟩) ∧
    (avio.write_flag = false →
      stream_control bk s Cmd.RECONNECT =
        ⟨(open_f bk { s with priv := none }).1,
          (open_f bk { s with priv := none }).2, none, none⟩) := by
  have hs : s = { s with priv := some avio } := by rw [← hp]
  rw [hs]
  unfold stream_control
  constructor <;> intro hw <;> simp [hw, close_f]

/-- Witness for C5 at a concrete write-mode session and a concrete read-mode
session. -/
theorem reconnect_mode_dispatch_witness :
    stream_control bkOk sWritePriv Cmd.RECONNECT =
      ⟨sWritePriv, STREAM_UNSUPPORTED, none, none⟩ ∧
    stream_control bkOk sReadPriv Cmd.RECONNECT =
      ⟨(open_f bkOk { sReadPriv with priv := none }).1,
        (open_f bkOk { sReadPriv with priv := none }).2, none, none⟩ :=
  ⟨(reconnect_mode_dispatch bkOk sWritePriv avioWrite rfl).1 rfl,
    (reconnect_mode_dispatch bkOk sReadPriv avioRead rfl).2 rfl⟩

/-- C2 counterexample: the claim is false for the empty-string URL — the code
rejects only a NULL URL (`if (!filename)`), so an empty string reaches the
backend's open primitive, which here succeeds: the open does not fail with a
configuration error. -/
theorem open_empty_url_reaches_backend : (open_f bkOk sEmptyUrl).2 ≠ STREAM_ERROR := by
  decide

/-- C2 (amended): an open attempt with a missing (NULL) URL fails immediately
with the error status, leaves the handle untouched, and never invokes the
backend's open primitive — any two backends produce identical results; an
empty-string URL is not rejected and is handed to the backend. -/
theorem open_missing_url_rejected (bk bk2 : Backend) (s : stream_t)
    (h : s.url = none) :
    (open_f bk s).2 = STREAM_ERROR ∧ (open_f bk s).1.priv = s.priv ∧
    open_f bk s = open_f bk2 s := by
  have hs : s = { s with url := none } := by rw [← h]
  rw [hs]
  exact ⟨rfl, rfl, rfl⟩

/-- Witness for the amended C2 at a concrete descriptor with a NULL URL and
two observably different backends. -/
theorem open_missing_url_rejected_witness :
    (open_f bkOk sNoUrl).2 = STREAM_ERROR ∧ (open_f bkOk sNoUrl).1.priv = sNoUrl.priv ∧
    open_f bkOk sNoUrl = open_f bkFail sNoUrl :=
  open_missing_url_rejected bkOk bkFail sNoUrl rfl

/-- A failed open leaves the descriptor's handle field exactly as it was: no
branch of `openResolved` that returns the error status writes `priv`. -/
theorem openResolved_fail_keeps_priv (bk : Backend) (s : stream_t) (flags : Int)
    (f : Str) :
    (openResolved bk s flags f).2 = STREAM_ERROR →
    (openResolved bk s flags f).1.priv = s.priv := by
  unfold openResolved
  by_cases hr : ("rtsp:".data).isPrefixOf f = true
  · simp only [hr, if_true]
    intro habs
    have habs2 : STREAM_OK = STREAM_ERROR := habs
    exact absurd habs2 (by decide)
  · simp only [hr, if_false]
    cases hE : bk.avio_open2 (rewriteMms f) flags (buildDict bk s.opts) with
    | error e => intro _; rfl
    | ok avio =>
      intro habs
      have habs2 : STREAM_OK = STREAM_ERROR := habs
      exact absurd habs2 (by decide)

/-- A failed `open_f` leaves the descriptor's handle field exactly as it was. -/
theorem open_f_fail_keeps_priv (bk : Backend) (s : stream_t) :
    (open_f bk s).2 = STREAM_ERROR → (open_f bk s).1.priv = s.priv := by
  unfold open_f
  cases hu : s.url with
  | none => intro _; rfl
  | some u0 =>
    exact openResolved_fail_keeps_priv bk
      { s with url := some u0, seek_set := false, seekable := false }
      (if s.mode = Mode.write then AVIO_FLAG_WRITE else AVIO_FLAG_READ)
      (stripWrap u0)

/-- C6: when a reconnect on a read-mode session fails to reopen, the
descriptor is left holding no session handle — never a stale or closed one. -/
theorem reconnect_fail_clears_priv (bk : Backend) (s : stream_t) (avio : AVIOContext)
    (hp : s.priv = some avio) (hw : avio.write_flag = false)
    (hfail : (stream_control bk s Cmd.RECONNECT).ret = STREAM_ERROR) :
    (stream_control bk s Cmd.RECONNECT).stream.priv = none := by
  have hc : stream_control bk s Cmd.RECONNECT =
      ⟨(open_f bk { s with priv := none }).1, (open_f bk { s with priv := none }).2,
        none, none⟩ := by
    have hs : s = { s with priv := some avio } := by rw [← hp]
    rw [hs]
    unfold stream_control
    simp [hw, close_f]
  rw [hc] at hfail ⊢
  exact open_f_fail_keeps_priv bk { s with priv := none } hfail

/-- Witness for C6: a read-mode session reconnected against a backend that
refuses to reopen ends with no handle. -/
theorem reconnect_fail_clears_priv_witness :
    (stream_control bkFail sReadPriv Cmd.RECONNECT).stream.priv = none :=
  reconnect_fail_clears_priv bkFail sReadPriv avioRead rfl rfl (by decide)

/-- No branch of the resolved open installs a seek affordance from a
non-seekable handle: if the result holds some handle reporting non-seekable
and the seek affordances were off before the attempt, they are off after. -/
theorem openResolved_nonseekable (bk : Backend) (s : stream_t) (flags : Int)
    (f : Str) (avio : AVIOContext)
    (hs : s.seekable = false) (hk : s.seek_set = false)
    (hp : (openResolved bk s flags f).1.priv = some avio)
    (hns : avio.seekable = false) :
    (openResolved bk s flags f).1.seekable = false ∧
    (openResolved bk s flags f).1.seek_set = false := by
  unfold openResolved at hp ⊢
  by_cases hr : ("rtsp:".data).isPrefixOf f = true
  · simp only [hr, if_true] at hp ⊢
    exact ⟨hs, hk⟩
  · simp only [hr, if_false] at hp ⊢
    revert hp
    cases hE : bk.avio_open2 (rewriteMms f) flags (buildDict bk s.opts) with
    | error e => intro _; exact ⟨hs, hk⟩
    | ok avio0 =>
      intro hp
      have hp2 : some avio0 = some avio := hp
      have h0 : avio0 = avio := Option.some.inj hp2
      rw [h0]
      exact ⟨hns, hns⟩

/-- C7: after a successful open whose backend handle reports non-seekable, the
descriptor's seekable flag is false and no seek operation is installed, so no
working seek is exposed for that session. -/
theorem open_nonseekable_disables_seek (bk : Backend) (s : stream_t)
    (avio : AVIOContext)
    (hok : (open_f bk s).2 = STREAM_OK)
    (hp : (open_f bk s).1.priv = some avio)
    (hns : avio.seekable = false) :
    (open_f bk s).1.seekable = false ∧ (open_f bk s).1.seek_set = false := by
  revert hok hp
  unfold open_f
  cases hu : s.url with
  | none => intro _ _; exact ⟨rfl, rfl⟩
  | some u0 =>
    intro hok hp
    exact openResolved_nonseekable bk
      { s with url := some u0, seek_set := false, seekable := false }
      (if s.mode = Mode.write then AVIO_FLAG_WRITE else AVIO_FLAG_READ)
      (stripWrap u0) avio rfl rfl hp hns

/-- Witness for C7: against the backend whose open yields a non-seekable
handle, a successful open of the base descriptor exposes no seek. -/
theorem open_nonseekable_disables_seek_witness :
    (open_f bkOk sBase).1.seekable = false ∧ (open_f bkOk sBase).1.seek_set = false :=
  open_nonseekable_disables_seek bkOk sBase avioNoSeek (by decide) (by decide) rfl

/-- C4: metadata extraction is idempotent with respect to the sentinel: after
any extraction call completes, a second call on the resulting backend state
(no new packet data supplied by the backend) returns no metadata, even when
the header block is non-empty and unchanged. -/
theorem read_icy_second_call_none (avio : AVIOContext) :
    (read_icy (read_icy avio).1).2 = none := by
  by_cases h1 : avio.av_class = false
  · simp [read_icy, h1]
  · by_cases h2 : optEmpty avio.icy_metadata_headers = true ∧
        optEmpty avio.icy_metadata_packet = true
    · simp [read_icy, h1, h2]
    · by_cases h3 : bstr0 avio.icy_metadata_packet = icySentinel
      · simp [read_icy, h1, h2, h3]
      · have hne : optEmpty (some icySentinel) = false := by decide
        have hb : bstr0 (some icySentinel) = icySentinel := rfl
        simp [read_icy, h1, h2, h3, hne, hb]

/-- C8: on the spec's worked example — header text `StationName: Test` with
CRLF and packet text `StreamTitle='Now Playing';` (single quotes around the
title) — extraction yields a tag set containing `StationName=Test` and
`icy-title=Now Playing`. -/
theorem read_icy_example_tags :
    ("StationName".data, "Test".data) ∈ ((read_icy avioC8).2.getD []) ∧
    ("icy-title".data, "Now Playing".data) ∈ ((read_icy avioC8).2.getD []) := by
  decide

/-- Stripping is the identity on a URL that carries neither wrapper scheme. -/
theorem stripWrap_id (u : Str)
    (h1 : List.isPrefixOf ("lavf://".data) u = false)
    (h2 : List.isPrefixOf ("ffmpeg://".data) u = false) :
    stripWrap u = u := by
  have n1 : ¬ ("lavf://".data <+: u) := by
    rw [← List.isPrefixOf_iff_prefix]
    simp [h1]
  have n2 : ¬ ("ffmpeg://".data <+: u) := by
    rw [← List.isPrefixOf_iff_prefix]
    simp [h2]
  unfold stripWrap url_wrappers
  simp [n1, n2]

/-- Prepending the first wrapper scheme strips back to the original URL,
provided the original does not itself start with the second wrapper. -/
theorem stripWrap_wrap1 (u : Str)
    (h2 : List.isPrefixOf ("ffmpeg://".data) u = false) :
    stripWrap ("lavf://".data ++ u) = u := by
  have n2 : ¬ ("ffmpeg://".data <+: u) := by
    rw [← List.isPrefixOf_iff_prefix]
    simp [h2]
  have p1 : ("lavf://".data <+: ("lavf://".data ++ u)) := List.prefix_append _ _
  unfold stripWrap url_wrappers
  simp [p1, n2, List.drop_left]

/-- Prepending the second wrapper scheme always strips back to the original. -/
theorem stripWrap_wrap2 (u : Str) : stripWrap ("ffmpeg://".data ++ u) = u := by
  have n1 : ¬ ("lavf://".data <+: ("ffmpeg://".data ++ u)) := by
    rw [show ("lavf://".data : Str) = 'l' :: "avf://".data from rfl,
      show "ffmpeg://".data ++ u = 'f' :: ("fmpeg://".data ++ u) from rfl,
      List.cons_prefix_cons]
    rintro ⟨hc, -⟩
    exact absurd hc (by decide)
  have p2 : ("ffmpeg://".data <+: ("ffmpeg://".data ++ u)) := List.prefix_append _ _
  unfold stripWrap url_wrappers
  simp [n1, p2, List.drop_left]

/-- The resolved open never reads the stored URL field: running it on a
descriptor with a replaced URL yields the same result with that URL stored. -/
theorem openResolved_url_irrelevant (bk : Backend) (s : stream_t) (v : Option Str)
    (flags : Int) (f : Str) :
    openResolved bk { s with url := v } flags f
      = ({ (openResolved bk s flags f).1 with url := v },
          (openResolved bk s flags f).2) := by
  unfold openResolved
  by_cases hr : ("rtsp:".data).isPrefixOf f = true
  · simp [hr]
  · simp only [hr, if_false]
    cases hE : bk.avio_open2 (rewriteMms f) flags (buildDict bk s.opts) with
    | error e => rfl
    | ok avio =>
      by_cases hc : avio.av_class = true
      · cases hM : bk.mime_get avio with
        | none =>
          by_cases ht : ("rtmp".data).isPrefixOf (rewriteMms f) = true <;>
            simp [hc, hM, ht]
        | some mt =>
          by_cases ht : ("rtmp".data).isPrefixOf (rewriteMms f) = true <;>
            simp [hc, hM, ht]
      · by_cases ht : ("rtmp".data).isPrefixOf (rewriteMms f) = true <;>
          simp [hc, ht]

/-- C3 (amended): for every URL that does not itself begin with either
wrapper scheme, opening it with a recognized wrapper scheme prepended behaves
identically to opening it bare — the same returned status and the same
descriptor fields, apart from the stored URL string, which keeps the form
that was passed in. -/
theorem open_wrapper_equiv (bk : Backend) (s : stream_t) (u p : Str)
    (hp : p ∈ url_wrappers)
    (h1 : List.isPrefixOf ("lavf://".data) u = false)
    (h2 : List.isPrefixOf ("ffmpeg://".data) u = false) :
    (open_f bk { s with url := some (p ++ u) }).2
      = (open_f bk { s with url := some u }).2 ∧
    (open_f bk { s with url := some (p ++ u) }).1
      = { (open_f bk { s with url := some u }).1 with url := some (p ++ u) } := by
  have hstrip : stripWrap (p ++ u) = u := by
    have hp2 : p = "lavf://".data ∨ p = "ffmpeg://".data := by
      simpa [url_wrappers] using hp
    rcases hp2 with hp2 | hp2 <;> subst hp2
    · exact stripWrap_wrap1 u h2
    · exact stripWrap_wrap2 u
  have hid : stripWrap u = u := stripWrap_id u h1 h2
  have key : openResolved bk { s with url := some (p ++ u), seek_set := false, seekable := false }
      (if s.mode = Mode.write then AVIO_FLAG_WRITE else AVIO_FLAG_READ) u
      = ({ (openResolved bk { s with url := some u, seek_set := false, seekable := false }
            (if s.mode = Mode.write then AVIO_FLAG_WRITE else AVIO_FLAG_READ) u).1 with
            url := some (p ++ u) },
          (openResolved bk { s with url := some u, seek_set := false, seekable := false }
            (if s.mode = Mode.write then AVIO_FLAG_WRITE else AVIO_FLAG_READ) u).2) :=
    openResolved_url_irrelevant bk
      { s with url := some u, seek_set := false, seekable := false }
      (some (p ++ u))
      (if s.mode = Mode.write then AVIO_FLAG_WRITE else AVIO_FLAG_READ) u
  constructor
  · calc (open_f bk { s with url := some (p ++ u) }).2
        = (openResolved bk { s with url := some (p ++ u), seek_set := false, seekable := false }
            (if s.mode = Mode.write then AVIO_FLAG_WRITE else AVIO_FLAG_READ)
            (stripWrap (p ++ u))).2 := rfl
      _ = (openResolved bk { s with url := some (p ++ u), seek_set := false, seekable := false }
            (if s.mode = Mode.write then AVIO_FLAG_WRITE else AVIO_FLAG_READ) u).2 := by
            rw [hstrip]
      _ = (openResolved bk { s with url := some u, seek_set := false, seekable := false }
            (if s.mode = Mode.write then AVIO_FLAG_WRITE else AVIO_FLAG_READ) u).2 := by
            rw [key]
      _ = (openResolved bk { s with url := some u, seek_set := false, seekable := false }
            (if s.mode = Mode.write then AVIO_FLAG_WRITE else AVIO_FLAG_READ)
            (stripWrap u)).2 := by rw [hid]
      _ = (open_f bk { s with url := some u }).2 := rfl
  · calc (open_f bk { s with url := some (p ++ u) }).1
        = (openResolved bk { s with url := some (p ++ u), seek_set := false, seekable := false }
            (if s.mode = Mode.write then AVIO_FLAG_WRITE else AVIO_FLAG_READ)
            (stripWrap (p ++ u))).1 := rfl
      _ = (openResolved bk { s with url := some (p ++ u), seek_set := false, seekable := false }
            (if s.mode = Mode.write then AVIO_FLAG_WRITE else AVIO_FLAG_READ) u).1 := by
            rw [hstrip]
      _ = { (openResolved bk { s with url := some u, seek_set := false, seekable := false }
            (if s.mode = Mode.write then AVIO_FLAG_WRITE else AVIO_FLAG_READ) u).1 with
            url := some (p ++ u) } := by rw [key]
      _ = { (openResolved bk { s with url := some u, seek_set := false, seekable := false }
            (if s.mode = Mode.write then AVIO_FLAG_WRITE else AVIO_FLAG_READ)
            (stripWrap u)).1 with url := some (p ++ u) } := by rw [hid]
      _ = { (open_f bk { s with url := some u }).1 with url := some (p ++ u) } := rfl

/-- C3 counterexample: the claim fails as universally stated — the strip loop
removes each wrapper at most once, in table order, so opening
`ffmpeg://lavf://x` resolves to `lavf://x` while opening `lavf://x` resolves
to `x`; against a backend that accepts exactly the URL `x` the two opens
return different statuses. -/
theorem open_wrapper_equiv_cex :
    (open_f bkDisc { sBase with url := some ("ffmpeg://".data ++ "lavf://x".data) }).2
      ≠ (open_f bkDisc { sBase with url := some ("lavf://x".data) }).2 := by
  decide

/-- Witness for the amended C3: wrapping `udp://y` in `lavf://` opens
identically to the bare URL. -/
theorem open_wrapper_equiv_witness :
    (open_f bkOk { sBase with url := some ("lavf://".data ++ "udp://y".data) }).2
      = (open_f bkOk { sBase with url := some ("udp://y".data) }).2 ∧
    (open_f bkOk { sBase with url := some ("lavf://".data ++ "udp://y".data) }).1
      = { (open_f bkOk { sBase with url := some ("udp://y".data) }).1 with
          url := some ("lavf://".data ++ "udp://y".data) } :=
  open_wrapper_equiv bkOk sBase ("udp://y".data) ("lavf://".data)
    (by decide) (by decide) (by decide)
